import Mathlib

/-!
Verification of the `process-transcript` serverless function
(`src/meeting-transcript-app/serverlessFunctions/process-transcript/src/index.ts`).

The TypeScript source is shallowly embedded: pure string routines become Lean
functions over `String` (whose `data` is a `List Char`; only ASCII behaviour of
`toLowerCase` is modelled, which covers every claim), the external services
(LLM analyzer, CRM REST/GraphQL endpoints, the system clock and date parser)
become an explicit `Services` record of oracles, environment variables become an
`Env` record of `Option String` (JavaScript string falsiness — `undefined` or
`""` — is `jsTruthy = false`), thrown exceptions become `Except String`, and
every outbound CRM/LLM call is recorded in an explicit `List Effect` so that
"no side effect occurred" is a provable statement.  The floating-point
comparison `overlapRatio > 0.7` is embedded as the exact rational comparison
with denominators cleared; the only ratios the code can actually produce are
`0` and `1` (see `areSimilarTasks_eq_mutualContainment`), where the rational
and IEEE-double comparisons agree.
-/

/-- JavaScript truthiness of an optional string: `undefined` and `""` are
falsy, every other string is truthy (mirrors `if (!x)` checks in the source). -/
def jsTruthy : Option String → Bool
  | none => false
  | some s => s ≠ ""

/-- Characters kept by `replace(/[^a-z0-9]/g, '')`: ASCII lowercase letters and
digits. -/
def isAlnumLower (c : Char) : Bool :=
  c.isLower || c.isDigit

/-- Whitespace for the `/\s+/` split (ASCII whitespace). -/
def isWs (c : Char) : Bool :=
  c.isWhitespace

/-- Accumulator-based model of JavaScript `str.split(/\s+/)` over character
lists: separators are maximal runs of whitespace (`inRun` records whether the
scan is inside such a run); a leading or trailing run contributes an empty
piece, and `"".split` yields `[""]`. -/
def splitWsGo : List (List Char) → List Char → Bool → List Char → List (List Char)
  | acc, cur, inRun, [] =>
    ((if inRun then [] else cur.reverse) :: acc).reverse
  | acc, cur, inRun, c :: rest =>
    if isWs c then
      if inRun then splitWsGo acc [] true rest
      else splitWsGo (cur.reverse :: acc) [] true rest
    else
      splitWsGo acc (c :: cur) false rest

/-- JavaScript `str.split(/\s+/)` on the characters of a string. -/
def splitWsChars (l : List Char) : List (List Char) :=
  splitWsGo [] [] false l

/-- ASCII model of JavaScript `str.toLowerCase()`. -/
def jsToLower (s : String) : String :=
  String.mk (s.data.map Char.toLower)

/-- Model of JavaScript `str.trim()`: strip whitespace from both ends. -/
def jsTrim (s : String) : String :=
  String.mk (((s.data.dropWhile isWs).reverse.dropWhile isWs).reverse)

/-- JavaScript `haystack.includes(needle)`: contiguous-substring test. -/
def strIncludes (hay needle : String) : Bool :=
  decide (needle.data <:+: hay.data)

/-- The `normalize` closure of `areSimilarTasks`:
`str.toLowerCase().replace(/[^a-z0-9]/g, '')`.  Note that this strips
whitespace as well, since spaces are not in `[a-z0-9]`. -/
def normalizeTitle (s : String) : String :=
  String.mk ((s.data.map Char.toLower).filter isAlnumLower)

/-- Embedding of `areSimilarTasks(task1, task2)` from the source: mutual
containment of the normalized strings, else a Dice word-overlap ratio over the
whitespace-split word lists of the (already whitespace-free) normalized
strings, with strict threshold `> 0.7`. -/
def areSimilarTasks (task1 task2 : String) : Bool :=
  let normalized1 := normalizeTitle task1
  let normalized2 := normalizeTitle task2
  if strIncludes normalized1 normalized2 || strIncludes normalized2 normalized1 then
    true
  else
    let words1 := (splitWsChars normalized1.data).filter (fun w => w.length > 3)
    let words2 := (splitWsChars normalized2.data).filter (fun w => w.length > 3)
    let commonWords := words1.filter (fun w => words2.contains w)
    if words1.length = 0 || words2.length = 0 then
      false
    else
      -- `overlapRatio > 0.7` with `overlapRatio = commonWords.length * 2 / (words1.length + words2.length)`,
      -- written with the (positive) denominators cleared so it stays in `Nat`.
      decide (7 * (words1.length + words2.length) < 10 * (commonWords.length * 2))

/-- The pure mutual-containment test on normalized titles (the first branch of
`areSimilarTasks` on its own). -/
def mutualContainment (task1 task2 : String) : Bool :=
  strIncludes (normalizeTitle task1) (normalizeTitle task2) ||
    strIncludes (normalizeTitle task2) (normalizeTitle task1)

/-- A workspace member as delivered by the GraphQL `workspaceMembers` query.
`firstName`/`lastName` are the strings after the source's `|| ''` defaulting,
so a missing name field is modelled as `""`. -/
structure Member where
  id : String
  firstName : String
  lastName : String
  deriving Repr, DecidableEq

/-- `` `${firstName} ${lastName}`.trim().toLowerCase() `` as computed inside
`lookupWorkspaceMemberByName`. -/
def fullNameOf (m : Member) : String :=
  jsToLower (jsTrim (m.firstName ++ " " ++ m.lastName))

/-- `name.trim().toLowerCase()` — the normalized search query. -/
def normalizeQuery (name : String) : String :=
  jsToLower (jsTrim name)

/-- Tier 1 predicate: `fullName === searchName`. -/
def tierExact (searchName : String) (m : Member) : Bool :=
  fullNameOf m == searchName

/-- Tier 2 predicate: `firstName.toLowerCase() === searchName`. -/
def tierFirstName (searchName : String) (m : Member) : Bool :=
  jsToLower m.firstName == searchName

/-- Tier 3 predicate: `lastName.toLowerCase() === searchName`. -/
def tierLastName (searchName : String) (m : Member) : Bool :=
  jsToLower m.lastName == searchName

/-- Tier 4 predicate: `fullName.includes(searchName) || searchName.includes(fullName)`. -/
def tierContains (searchName : String) (m : Member) : Bool :=
  strIncludes (fullNameOf m) searchName || strIncludes searchName (fullNameOf m)

/-- The four-tier scan over the fetched member edges inside
`lookupWorkspaceMemberByName`: exact full-name, first-name, last-name, then
substring containment; each tier scans the whole list (`find?` returns the
first match in list order) before falling through. An empty edge list (the
source's early `return null`) falls out as `none` since every `find?` fails. -/
def findWorkspaceMember (edges : List Member) (name : String) : Option String :=
  let searchName := normalizeQuery name
  match edges.find? (tierExact searchName) with
  | some m => some m.id
  | none =>
    match edges.find? (tierFirstName searchName) with
    | some m => some m.id
    | none =>
      match edges.find? (tierLastName searchName) with
      | some m => some m.id
      | none =>
        match edges.find? (tierContains searchName) with
        | some m => some m.id
        | none => none

/-- The environment variables the function reads (`process.env.*`); a missing
variable is `none` and participates in JavaScript falsiness checks. -/
structure Env where
  twentyApiKey : Option String
  twentyApiUrl : Option String
  openaiApiKey : Option String
  groqBaseUrl : Option String
  webhookSecret : Option String
  deriving Repr, DecidableEq

/-- One outbound call to an external service (CRM REST/GraphQL or the LLM).
Recording these is how the embedding expresses "this run performed no
side effects". -/
inductive Effect where
  | analyzeCall
  | membersFetch
  | notePost
  | noteTargetPost
  | taskPost (title : String)
  | taskTargetPost
  deriving Repr, DecidableEq

/-- The task payload POSTed to `/rest/tasks` (title, markdown body, optional
`dueAt`, optional `assigneeId`). -/
structure TaskData where
  title : String
  description : String
  dueAt : Option String
  assigneeId : Option String
  deriving Repr, DecidableEq

structure ActionItem where
  title : String
  description : String
  assignee : Option String
  dueDate : Option String
  deriving Repr, DecidableEq

structure Commitment where
  person : String
  commitment : String
  dueDate : Option String
  deriving Repr, DecidableEq

structure AnalysisResult where
  summary : String
  keyPoints : List String
  actionItems : List ActionItem
  commitments : List Commitment
  deriving Repr

/-- Oracles for the external collaborators: each field gives the outcome the
corresponding network call (or the host date parser / clock) would produce.
`Except.error` models a thrown/rejected call. -/
structure Services where
  analyze : String → Except String AnalysisResult
  fetchMembers : Except String (List Member)
  postNote : String → String → Except String (Option String)
  postNoteTarget : String → String → Except String Unit
  postTask : TaskData → Except String (Option String)
  postTaskTarget : String → String → Except String Unit
  parseDate : String → Option String
  todayStr : String

/-- `getTwentyApiConfig`: read `TWENTY_API_KEY` and `TWENTY_API_URL`, throwing
(`Except.error`) when either is absent or empty. -/
def getTwentyApiConfig (env : Env) : Except String (String × String) :=
  if !(jsTruthy env.twentyApiKey) then
    .error "TWENTY_API_KEY environment variable is not set"
  else if !(jsTruthy env.twentyApiUrl) then
    .error "TWENTY_API_URL environment variable is not set"
  else
    .ok (env.twentyApiKey.getD "", env.twentyApiUrl.getD "")

/-- `lookupWorkspaceMemberByName`: `getTwentyApiConfig()` is called *outside*
the `try` block, so a configuration error propagates; once inside the `try`,
a failed members fetch (or any other error — the `catch` returns `null`
unconditionally) yields `.ok none`, and a successful fetch runs the pure
four-tier scan. The first component lists the outbound calls performed. -/
def lookupWorkspaceMemberByName (env : Env) (ext : Services) (name : String) :
    List Effect × Except String (Option String) :=
  match getTwentyApiConfig env with
  | .error e => ([], .error e)
  | .ok _ =>
    match ext.fetchMembers with
    | .error _ => ([.membersFetch], .ok none)
    | .ok edges => ([.membersFetch], .ok (findWorkspaceMember edges name))

/-- `formatNoteBody(summary, keyPoints)`. -/
def formatNoteBody (summary : String) (keyPoints : List String) : String :=
  let keyPointsList := String.intercalate "\n" (keyPoints.map (fun point => "- " ++ point))
  "## Summary\n\n" ++ summary ++ "\n\n## Key Points\n\n" ++ keyPointsList ++
    "\n\n*Generated from meeting transcript*"

/-- `linkNoteToPersonREST`: POST `/rest/noteTargets`; a failed request is
re-thrown as a hard error (an unlinked note is treated as failure). -/
def linkNoteToPersonREST (env : Env) (ext : Services) (noteId personId : String) :
    List Effect × Except String Unit :=
  match getTwentyApiConfig env with
  | .error e => ([], .error e)
  | .ok _ =>
    match ext.postNoteTarget noteId personId with
    | .error e => ([.noteTargetPost], .error ("Failed to link note to person: " ++ e))
    | .ok _ => ([.noteTargetPost], .ok ())

/-- `createNoteInTwenty`: build the note title (falling back to
`"Meeting Notes - "` + meeting date or today's date), POST the note, extract
the created id (missing id is an error), then link the note to the person;
the link error propagates (note creation fails hard). -/
def createNoteInTwenty (env : Env) (ext : Services) (summary : String)
    (keyPoints : List String) (relatedPersonId : String)
    (meetingTitle meetingDate : Option String) :
    List Effect × Except String String :=
  match getTwentyApiConfig env with
  | .error e => ([], .error e)
  | .ok _ =>
    let noteTitle :=
      if jsTruthy meetingTitle then meetingTitle.getD ""
      else "Meeting Notes - " ++ (if jsTruthy meetingDate then meetingDate.getD "" else ext.todayStr)
    let noteBodyMarkdown := formatNoteBody summary keyPoints
    match ext.postNote noteTitle noteBodyMarkdown with
    | .error e => ([.notePost], .error ("Failed to create note: " ++ e))
    | .ok none => ([.notePost], .error "Note created but ID not found in response")
    | .ok (some noteId) =>
      match linkNoteToPersonREST env ext noteId relatedPersonId with
      | (effs, .error e) => ([.notePost] ++ effs, .error e)
      | (effs, .ok _) => ([.notePost] ++ effs, .ok noteId)

/-- `linkTaskToPersonREST`: POST `/rest/taskTargets`; a failed request is only
logged (the error is swallowed), but the `getTwentyApiConfig` call before the
`try` can still throw. -/
def linkTaskToPersonREST (env : Env) (ext : Services) (taskId personId : String) :
    List Effect × Except String Unit :=
  match getTwentyApiConfig env with
  | .error e => ([], .error e)
  | .ok _ =>
    match ext.postTaskTarget taskId personId with
    | _ => ([.taskTargetPost], .ok ())

/-- The `dueAt` computation of `createTaskInTwenty`: only a truthy `dueDate`
string is parsed (`new Date(...)`), and a parse failure (`isNaN`) silently
leaves `dueAt` unset. -/
def resolveDueAt (ext : Services) (dueDate : Option String) : Option String :=
  if jsTruthy dueDate then ext.parseDate (dueDate.getD "") else none

/-- `createTaskInTwenty`: resolve the assignee (best effort, a failed lookup
leaves the task unassigned), resolve `dueAt`, POST the task, extract the id
(missing id is an error), then link the task to the related person (link
failures swallowed by `linkTaskToPersonREST`). -/
def createTaskInTwenty (env : Env) (ext : Services) (actionItem : ActionItem)
    (relatedPersonId : Option String) : List Effect × Except String String :=
  match getTwentyApiConfig env with
  | .error e => ([], .error e)
  | .ok _ =>
    match (if jsTruthy actionItem.assignee then
        lookupWorkspaceMemberByName env ext (actionItem.assignee.getD "")
      else ([], .ok none)) with
    | (effs1, .error e) => (effs1, .error e)
    | (effs1, .ok assigneeId) =>
      let taskData : TaskData :=
        { title := actionItem.title
          description := actionItem.description
          dueAt := resolveDueAt ext actionItem.dueDate
          assigneeId := assigneeId }
      match ext.postTask taskData with
      | .error e =>
        (effs1 ++ [.taskPost actionItem.title],
          .error ("Failed to create task \x22" ++ actionItem.title ++ "\x22: " ++ e))
      | .ok none =>
        (effs1 ++ [.taskPost actionItem.title], .error "Task created but ID not found in response")
      | .ok (some taskId) =>
        match relatedPersonId with
        | some pid =>
          match linkTaskToPersonREST env ext taskId pid with
          | (effs2, .error e) => (effs1 ++ [.taskPost actionItem.title] ++ effs2, .error e)
          | (effs2, .ok _) => (effs1 ++ [.taskPost actionItem.title] ++ effs2, .ok taskId)
        | none => (effs1 ++ [.taskPost actionItem.title], .ok taskId)

/-- The commitment-to-task conversion inside `createAllTasks`
(`title = "Follow up: " + commitment`, `assignee = person`,
`dueDate = commitment.dueDate || ''`). -/
def commitmentToTask (noteId : String) (c : Commitment) : ActionItem :=
  { title := "Follow up: " ++ c.commitment
    description := "Commitment from " ++ c.person ++ ": " ++ c.commitment ++
      "\n\n*Related to meeting note: " ++ noteId ++ "*"
    assignee := some c.person
    dueDate := some (c.dueDate.getD "") }

/-- The combined candidate list of `createAllTasks`: action items (descriptions
suffixed with the note back-reference) followed by commitment-derived tasks. -/
def buildAllTasks (actionItems : List ActionItem) (commitments : List Commitment)
    (noteId : String) : List ActionItem :=
  actionItems.map (fun item =>
      { item with description := item.description ++ "\n\n*Related to meeting note: " ++ noteId ++ "*" })
    ++ commitments.map (commitmentToTask noteId)

/-- What happened to one candidate in the `createAllTasks` loop — mirrors the
three `console.log` outcomes of the source loop body: skipped as a duplicate,
creation threw, or created with an id. -/
inductive TaskEvent where
  | skipped (title : String)
  | failed (title : String)
  | created (title : String) (id : String)
  deriving Repr, DecidableEq

/-- The loop state of `createAllTasks`: accumulated `taskIds`, the
`createdTasks` title set (insertion-ordered, as a JavaScript `Set`),
the duplicate counter, the outbound calls performed, and the per-candidate
event trace (instrumentation mirroring the loop's logging). -/
structure RunState where
  taskIds : List String
  createdTasks : List String
  duplicatesSkipped : Nat
  effects : List Effect
  trace : List TaskEvent
  deriving Repr, DecidableEq

def initRunState : RunState :=
  { taskIds := [], createdTasks := [], duplicatesSkipped := 0, effects := [], trace := [] }

/-- One iteration of the `createAllTasks` loop: scan `createdTasks` for a
similar title (first hit short-circuits; skip and count), otherwise attempt
creation — on success push the id and add the title to the set, on failure
only log (state otherwise unchanged). -/
def createAllTasksStep (createOne : ActionItem → List Effect × Except String String)
    (st : RunState) (task : ActionItem) : RunState :=
  if st.createdTasks.any (fun existingTitle => areSimilarTasks task.title existingTitle) then
    { st with duplicatesSkipped := st.duplicatesSkipped + 1,
              trace := st.trace ++ [.skipped task.title] }
  else
    match createOne task with
    | (effs, .ok id) =>
      { st with taskIds := st.taskIds ++ [id],
                createdTasks :=
                  if task.title ∈ st.createdTasks then st.createdTasks
                  else st.createdTasks ++ [task.title],
                effects := st.effects ++ effs,
                trace := st.trace ++ [.created task.title id] }
    | (effs, .error _) =>
      { st with effects := st.effects ++ effs,
                trace := st.trace ++ [.failed task.title] }

/-- The full `createAllTasks` loop over a candidate list. -/
def createAllTasksRun (createOne : ActionItem → List Effect × Except String String)
    (allTasks : List ActionItem) : RunState :=
  allTasks.foldl (createAllTasksStep createOne) initRunState

/-- `createAllTasks(actionItems, commitments, noteId, relatedPersonId)`:
build the candidate list, run the dedup/create loop, and return
`{ taskIds, duplicatesSkipped }` (with the recorded outbound calls). -/
def createAllTasks (env : Env) (ext : Services) (actionItems : List ActionItem)
    (commitments : List Commitment) (noteId relatedPersonId : String) :
    List Effect × List String × Nat :=
  let fin := createAllTasksRun (fun t => createTaskInTwenty env ext t (some relatedPersonId))
    (buildAllTasks actionItems commitments noteId)
  (fin.effects, fin.taskIds, fin.duplicatesSkipped)

/-- `analyzeTranscript`: check `GROQ_API_BASE_URL`, then one completion call;
a missing/empty response or JSON parse failure is the oracle's `.error`. -/
def analyzeTranscript (env : Env) (ext : Services) (transcript : String) :
    List Effect × Except String AnalysisResult :=
  if !(jsTruthy env.groqBaseUrl) then
    ([], .error "GROQ_API_BASE_URL environment variable is not set")
  else
    match ext.analyze transcript with
    | .error e => ([.analyzeCall], .error e)
    | .ok a => ([.analyzeCall], .ok a)

/-- The validated webhook payload fields `main` reads (all modelled as strings;
the `typeof === 'string'` checks hold by construction). -/
structure Payload where
  transcript : Option String
  relatedPersonId : Option String
  meetingTitle : Option String
  meetingDate : Option String
  token : Option String
  deriving Repr, DecidableEq

/-- The response object of `main`. -/
inductive MainResult where
  | ok (noteId : String) (taskIds : List String) (duplicatesSkipped : Nat)
      (actionItemsProcessed commitmentsProcessed : Nat)
  | err (error : String)
  deriving Repr, DecidableEq

/-- `main(params)`: token check, payload validation, `OPENAI_API_KEY` check,
then analyze → create note → create all tasks; every thrown error is caught
and returned as a `success: false` response. The effect list records every
outbound call the invocation performed. -/
def mainModel (env : Env) (ext : Services) (params : Payload) :
    List Effect × MainResult :=
  if !(jsTruthy env.webhookSecret) || !(jsTruthy params.token) ||
      params.token != env.webhookSecret then
    ([], .err "Unauthorized webhook access: Invalid or missing token.")
  else if !(jsTruthy params.transcript) then
    ([], .err "Transcript is required and must be a string")
  else if !(jsTruthy params.relatedPersonId) then
    ([], .err "relatedPersonId is required and must be a string")
  else if !(jsTruthy env.openaiApiKey) then
    ([], .err "OPENAI_API_KEY environment variable is not set")
  else
    let transcript := params.transcript.getD ""
    let relatedPersonId := params.relatedPersonId.getD ""
    match analyzeTranscript env ext transcript with
    | (effs1, .error e) => (effs1, .err e)
    | (effs1, .ok analysis) =>
      match createNoteInTwenty env ext analysis.summary analysis.keyPoints relatedPersonId
          params.meetingTitle params.meetingDate with
      | (effs2, .error e) => (effs1 ++ effs2, .err e)
      | (effs2, .ok noteId) =>
        match createAllTasks env ext analysis.actionItems analysis.commitments noteId
            relatedPersonId with
        | (effs3, taskIds, duplicatesSkipped) =>
          (effs1 ++ effs2 ++ effs3,
            .ok noteId taskIds duplicatesSkipped
              analysis.actionItems.length analysis.commitments.length)

/-- A fixed stub for the external services, specialised per witness via
record updates. -/
def stubServices : Services :=
  { analyze := fun _ => .error "stub analyzer"
    fetchMembers := .ok []
    postNote := fun _ _ => .ok none
    postNoteTarget := fun _ _ => .ok ()
    postTask := fun _ => .ok none
    postTaskTarget := fun _ _ => .ok ()
    parseDate := fun _ => none
    todayStr := "1/1/2026" }

/-- A fully configured environment for witnesses. -/
def envAllSet : Env :=
  { twentyApiKey := some "k", twentyApiUrl := some "u",
    openaiApiKey := some "o", groqBaseUrl := some "g",
    webhookSecret := some "secret" }

/-- Environment with `TWENTY_API_KEY` missing. -/
def envNoTwentyKey : Env :=
  { envAllSet with twentyApiKey := none }

/-- Modelled from the spec: the intended significant-word list of a title —
whitespace-tokenize the raw title, normalize each token (lower-case, strip
non-alphanumerics), keep words longer than 3 characters.  (The code instead
normalizes the whole title first, which destroys the token boundaries.) -/
def specSignificantWords (title : String) : List String :=
  ((splitWsChars title.data).map
      (fun w => String.mk ((w.map Char.toLower).filter isAlnumLower))).filter
    (fun w => w.length > 3)

/-- Modelled from the spec: numerator `2 * |intersection|` and denominator
`|words1| + |words2|` of the Dice coefficient over significant words. -/
def specWordOverlap (t1 t2 : String) : Nat × Nat :=
  let w1 := specSignificantWords t1
  let w2 := specSignificantWords t2
  let common := w1.filter (fun w => w2.contains w)
  (2 * common.length, w1.length + w2.length)

/-- Whether a creation attempt succeeded. -/
def exceptIsOk : Except String String → Bool
  | .ok _ => true
  | .error _ => false

theorem isAlnumLower_of_isWs (c : Char) (h : isWs c = true) : isAlnumLower c = false := by
  unfold isWs Char.isWhitespace at h
  simp only [Bool.or_eq_true, decide_eq_true_eq] at h
  rcases h with ((h | h) | h) | h <;> subst h <;> decide

theorem isWs_eq_false_of_isAlnumLower (c : Char) (h : isAlnumLower c = true) :
    isWs c = false := by
  cases hw : isWs c with
  | false => rfl
  | true => rw [isAlnumLower_of_isWs c hw] at h; exact absurd h (by simp)

theorem splitWsGo_no_ws (l : List Char) : ∀ (acc : List (List Char)) (cur : List Char),
    (∀ c ∈ l, isWs c = false) →
    splitWsGo acc cur false l = ((cur.reverse ++ l) :: acc).reverse := by
  induction l with
  | nil => intro acc cur _; simp [splitWsGo]
  | cons c rest ih =>
    intro acc cur h
    have hc : isWs c = false := h c (by simp)
    have hrest : ∀ c ∈ rest, isWs c = false := fun x hx => h x (by simp [hx])
    simp only [splitWsGo, hc, Bool.false_eq_true, if_false]
    rw [ih acc (c :: cur) hrest]
    simp

theorem splitWsChars_no_ws (l : List Char) (h : ∀ c ∈ l, isWs c = false) :
    splitWsChars l = [l] := by
  unfold splitWsChars
  rw [splitWsGo_no_ws l [] [] h]
  simp

theorem normalizeTitle_no_ws (s : String) :
    ∀ c ∈ (normalizeTitle s).data, isWs c = false := by
  intro c hc
  have hmem : c ∈ (s.data.map Char.toLower).filter isAlnumLower := hc
  exact isWs_eq_false_of_isAlnumLower c (List.of_mem_filter hmem)

theorem strIncludes_self (s : String) : strIncludes s s = true := by
  unfold strIncludes
  exact decide_eq_true ⟨[], [], by simp⟩

/-- The word-overlap branch of `areSimilarTasks` is dead code: `normalize`
strips all whitespace before the whitespace split, so each word list holds at
most one (fused) token, and that token is shared only when the two normalized
strings are equal — in which case the containment branch already returned.
Hence `areSimilarTasks` coincides with the mutual-containment test. -/
theorem areSimilarTasks_eq_mutualContainment (t1 t2 : String) :
    areSimilarTasks t1 t2 = mutualContainment t1 t2 := by
  unfold areSimilarTasks mutualContainment
  cases hb : (strIncludes (normalizeTitle t1) (normalizeTitle t2) ||
      strIncludes (normalizeTitle t2) (normalizeTitle t1)) with
  | true => simp [hb]
  | false =>
    simp only [hb, Bool.false_eq_true, if_false]
    rw [splitWsChars_no_ws _ (normalizeTitle_no_ws t1),
        splitWsChars_no_ws _ (normalizeTitle_no_ws t2)]
    have hne : (normalizeTitle t1).data ≠ (normalizeTitle t2).data := by
      intro he
      have heq : normalizeTitle t1 = normalizeTitle t2 := by
        cases hn1 : normalizeTitle t1 with
        | mk d1 =>
          cases hn2 : normalizeTitle t2 with
          | mk d2 =>
            rw [hn1, hn2] at he
            simp only at he
            rw [he]
      rw [heq, strIncludes_self] at hb
      simp at hb
    simp only [List.filter_cons, List.filter_nil]
    simp
    intro ha hb2
    simp [ha, hb2, hne]

theorem strIncludes_empty_needle (s : String) : strIncludes s "" = true := by
  unfold strIncludes
  exact decide_eq_true ⟨[], s.data, by simp⟩

theorem areSimilarTasks_self (t : String) : areSimilarTasks t t = true := by
  rw [areSimilarTasks_eq_mutualContainment]
  unfold mutualContainment
  simp [strIncludes_self]

theorem jsToLower_eq_empty_iff (s : String) : jsToLower s = "" ↔ s = "" := by
  constructor
  · intro h
    have hd : s.data.map Char.toLower = ([] : List Char) := congrArg String.data h
    have hnil : s.data = [] := List.map_eq_nil_iff.mp hd
    cases s with
    | mk d =>
      simp only at hnil
      rw [hnil]
  · intro h
    rw [h]
    rfl

/-- Claim C8: `areSimilarTasks` is extensionally equal to the simple
mutual-containment test — the word-overlap branch never changes the result,
because normalization removes all whitespace before the whitespace split. -/
theorem areSimilarTasks_iff_containment (t1 t2 : String) :
    areSimilarTasks t1 t2 = mutualContainment t1 t2 :=
  areSimilarTasks_eq_mutualContainment t1 t2

/-- Claim C2: whenever one normalized title is a substring of the other,
`areSimilarTasks` returns `true` (so `createAllTasks` counts the candidate as
a duplicate). -/
theorem containment_implies_similar (t1 t2 : String)
    (h : (normalizeTitle t2).data <:+: (normalizeTitle t1).data ∨
      (normalizeTitle t1).data <:+: (normalizeTitle t2).data) :
    areSimilarTasks t1 t2 = true := by
  rw [areSimilarTasks_eq_mutualContainment]
  unfold mutualContainment strIncludes
  rcases h with h | h
  · simp [h]
  · simp [h]

/-- Witness for C2 at the spec's example pair. -/
theorem containment_implies_similar_witness :
    ((normalizeTitle "Draft the deck for review").data <:+:
        (normalizeTitle "Draft the deck").data ∨
      (normalizeTitle "Draft the deck").data <:+:
        (normalizeTitle "Draft the deck for review").data) ∧
    areSimilarTasks "Draft the deck" "Draft the deck for review" = true := by
  have h : ((normalizeTitle "Draft the deck for review").data <:+:
      (normalizeTitle "Draft the deck").data ∨
    (normalizeTitle "Draft the deck").data <:+:
      (normalizeTitle "Draft the deck for review").data) := Or.inr (by decide)
  exact ⟨h, containment_implies_similar _ _ h⟩

/-- Claim C1 (code bug): the two titles below share 3 of 4 significant words —
a Dice ratio of `6/8 = 0.75 > 0.7` (`7 * 8 < 10 * 6` in cleared form) — and
neither normalized string contains the other, yet `areSimilarTasks` returns
`false`: the word-overlap branch can never fire because `normalize` strips the
whitespace that `split(/\s+/)` immediately looks for. -/
theorem word_overlap_075_not_flagged :
    specWordOverlap "alpha bravo charlie delta" "alpha bravo charlie echos" = (6, 8) ∧
    7 * 8 < 10 * 6 ∧
    mutualContainment "alpha bravo charlie delta" "alpha bravo charlie echos" = false ∧
    areSimilarTasks "alpha bravo charlie delta" "alpha bravo charlie echos" = false := by
  refine ⟨by decide, by decide, by decide, by decide⟩

/-- Claim C3: a missing/empty/mismatched token — or an absent configured
secret — makes `main` return the unauthorized failure response with an empty
effect list: no analyzer call, no note creation, no note link, no task
creation. -/
theorem unauthorized_no_side_effects (env : Env) (ext : Services) (params : Payload)
    (h : env.webhookSecret = none ∨ env.webhookSecret = some "" ∨
      params.token = none ∨ params.token = some "" ∨
      params.token ≠ env.webhookSecret) :
    mainModel env ext params =
      ([], .err "Unauthorized webhook access: Invalid or missing token.") := by
  have hcond : (!(jsTruthy env.webhookSecret) || !(jsTruthy params.token) ||
      params.token != env.webhookSecret) = true := by
    rcases h with h | h | h | h | h
    · simp [h, jsTruthy]
    · simp [h, jsTruthy]
    · simp [h, jsTruthy]
    · simp [h, jsTruthy]
    · simp [bne_iff_ne, h]
  unfold mainModel
  rw [hcond]
  simp

/-- Witness for C3: a wrong token against a configured secret. -/
theorem unauthorized_no_side_effects_witness :
    ((envAllSet.webhookSecret = none ∨ envAllSet.webhookSecret = some "" ∨
        (Payload.mk (some "t") (some "p") none none (some "wrong")).token = none ∨
        (Payload.mk (some "t") (some "p") none none (some "wrong")).token = some "" ∨
        (Payload.mk (some "t") (some "p") none none (some "wrong")).token ≠
          envAllSet.webhookSecret)) ∧
    mainModel envAllSet stubServices (Payload.mk (some "t") (some "p") none none (some "wrong")) =
      ([], .err "Unauthorized webhook access: Invalid or missing token.") := by
  have h : (envAllSet.webhookSecret = none ∨ envAllSet.webhookSecret = some "" ∨
      (Payload.mk (some "t") (some "p") none none (some "wrong")).token = none ∨
      (Payload.mk (some "t") (some "p") none none (some "wrong")).token = some "" ∨
      (Payload.mk (some "t") (some "p") none none (some "wrong")).token ≠
        envAllSet.webhookSecret) := by
    right; right; right; right; decide
  exact ⟨h, unauthorized_no_side_effects envAllSet stubServices _ h⟩

/-- Claim C4: the four lookup tiers form a strict priority cascade — a tier-k
match anywhere in the list beats any lower-tier match earlier in iteration
order, and within a tier `find?` returns the first matching member in list
order. -/
theorem lookup_tier_cascade (env : Env) (ext : Services) (name : String)
    (edges : List Member) (m : Member) (k u : String)
    (hcfg : getTwentyApiConfig env = .ok (k, u))
    (hfetch : ext.fetchMembers = .ok edges) :
    (edges.find? (tierExact (normalizeQuery name)) = some m →
      (lookupWorkspaceMemberByName env ext name).2 = .ok (some m.id)) ∧
    (edges.find? (tierExact (normalizeQuery name)) = none →
      edges.find? (tierFirstName (normalizeQuery name)) = some m →
      (lookupWorkspaceMemberByName env ext name).2 = .ok (some m.id)) ∧
    (edges.find? (tierExact (normalizeQuery name)) = none →
      edges.find? (tierFirstName (normalizeQuery name)) = none →
      edges.find? (tierLastName (normalizeQuery name)) = some m →
      (lookupWorkspaceMemberByName env ext name).2 = .ok (some m.id)) ∧
    (edges.find? (tierExact (normalizeQuery name)) = none →
      edges.find? (tierFirstName (normalizeQuery name)) = none →
      edges.find? (tierLastName (normalizeQuery name)) = none →
      edges.find? (tierContains (normalizeQuery name)) = some m →
      (lookupWorkspaceMemberByName env ext name).2 = .ok (some m.id)) := by
  unfold lookupWorkspaceMemberByName
  rw [hcfg, hfetch]
  refine ⟨fun h1 => ?_, fun h1 h2 => ?_, fun h1 h2 h3 => ?_, fun h1 h2 h3 h4 => ?_⟩
  · simp [findWorkspaceMember, h1]
  · simp [findWorkspaceMember, h1, h2]
  · simp [findWorkspaceMember, h1, h2, h3]
  · simp [findWorkspaceMember, h1, h2, h3, h4]

/-- Witness for C4 at the spec's tie-break example: members
`["Dylan Field", "Dylan Forsythe"]`, query `"Dylan"` — the exact tier fails
and the first-name tier returns the first member's id. -/
theorem lookup_tier_cascade_witness :
    ([⟨"id1", "Dylan", "Field"⟩, ⟨"id2", "Dylan", "Forsythe"⟩] :
        List Member).find? (tierExact (normalizeQuery "Dylan")) = none ∧
    ([⟨"id1", "Dylan", "Field"⟩, ⟨"id2", "Dylan", "Forsythe"⟩] :
        List Member).find? (tierFirstName (normalizeQuery "Dylan")) =
      some ⟨"id1", "Dylan", "Field"⟩ ∧
    (lookupWorkspaceMemberByName envAllSet
        { stubServices with
            fetchMembers := .ok [⟨"id1", "Dylan", "Field"⟩, ⟨"id2", "Dylan", "Forsythe"⟩] }
        "Dylan").2 = .ok (some "id1") := by
  refine ⟨by decide, by decide, ?_⟩
  exact (lookup_tier_cascade envAllSet _ "Dylan" _ ⟨"id1", "Dylan", "Field"⟩ "k" "u"
    rfl rfl).2.1 (by decide) (by decide)

/-- Claim C5 counterexample: with `TWENTY_API_KEY` unset,
`lookupWorkspaceMemberByName` propagates the configuration error to its caller
(the `getTwentyApiConfig()` call sits outside the `try` block), instead of
yielding the not-found result. -/
theorem lookup_config_error_propagates :
    (lookupWorkspaceMemberByName envNoTwentyKey stubServices "Alice").2 =
      .error "TWENTY_API_KEY environment variable is not set" := by
  rfl

/-- Claim C5 as amended: once `getTwentyApiConfig` succeeds, any error during
the lookup (network or otherwise) yields the not-found result and never
propagates: the returned `Except` is never an `error`, and a failed members
fetch yields exactly the not-found result `.ok none`. -/
theorem lookup_fails_soft_when_configured (env : Env) (ext : Services)
    (name k u : String) (hcfg : getTwentyApiConfig env = .ok (k, u)) :
    (∀ e, (lookupWorkspaceMemberByName env ext name).2 ≠ .error e) ∧
    (∀ msg, ext.fetchMembers = .error msg →
      (lookupWorkspaceMemberByName env ext name).2 = .ok none) := by
  unfold lookupWorkspaceMemberByName
  rw [hcfg]
  cases hf : ext.fetchMembers with
  | error msg => exact ⟨fun e => by simp, fun m hm => by simp⟩
  | ok edges => exact ⟨fun e => by simp, fun m hm => by simp at hm⟩

/-- Witness for C5's amended claim: configured environment, failing members
fetch — the lookup yields the not-found result `.ok none` and surfaces no
error. -/
theorem lookup_fails_soft_when_configured_witness :
    getTwentyApiConfig envAllSet = .ok ("k", "u") ∧
    (lookupWorkspaceMemberByName envAllSet
        { stubServices with fetchMembers := .error "network down" } "Bob").2 =
      .ok none ∧
    (lookupWorkspaceMemberByName envAllSet
        { stubServices with fetchMembers := .error "network down" } "Bob").2 ≠
      .error "network down" := by
  refine ⟨rfl, ?_, ?_⟩
  · exact (lookup_fails_soft_when_configured envAllSet _ "Bob" "k" "u" rfl).2
      "network down" rfl
  · exact (lookup_fails_soft_when_configured envAllSet _ "Bob" "k" "u" rfl).1
      "network down"

/-- Claim C9 counterexample: with members `[Ann Lee, ⟨empty names⟩]` and a
whitespace query, the lookup returns the *second* member (its empty full name
wins the exact tier), not the first member via the containment tier as the
claim states. -/
theorem empty_query_not_first_member :
    (lookupWorkspaceMemberByName envAllSet
        { stubServices with
            fetchMembers := .ok [⟨"idA", "Ann", "Lee"⟩, ⟨"idB", "", ""⟩] } " ").2 =
      .ok (some "idB") ∧ ("idB" : String) ≠ "idA" := by
  exact ⟨rfl, by decide⟩

theorem findWorkspaceMember_empty_query (e : Member) (rest : List Member) (name : String)
    (hq : normalizeQuery name = "") :
    (∃ mid, findWorkspaceMember (e :: rest) name = some mid) ∧
    ((∀ m ∈ (e :: rest : List Member),
        m.firstName ≠ "" ∧ m.lastName ≠ "" ∧ fullNameOf m ≠ "") →
      findWorkspaceMember (e :: rest) name = some e.id) := by
  have h4e : tierContains "" e = true := by
    simp [tierContains, strIncludes_empty_needle]
  constructor
  · unfold findWorkspaceMember
    rw [hq]
    cases h1 : (e :: rest).find? (tierExact "") with
    | some m => exact ⟨m.id, by simp [h1]⟩
    | none =>
      cases h2 : (e :: rest).find? (tierFirstName "") with
      | some m => exact ⟨m.id, by simp [h1, h2]⟩
      | none =>
        cases h3 : (e :: rest).find? (tierLastName "") with
        | some m => exact ⟨m.id, by simp [h1, h2, h3]⟩
        | none =>
          have h4 : (e :: rest).find? (tierContains "") = some e :=
            List.find?_cons_of_pos _ h4e
          exact ⟨e.id, by simp [h1, h2, h3, h4]⟩
  · intro hnames
    have h1 : (e :: rest).find? (tierExact "") = none := by
      rw [List.find?_eq_none]
      intro m hm
      simp only [tierExact, beq_iff_eq]
      exact (hnames m hm).2.2
    have h2 : (e :: rest).find? (tierFirstName "") = none := by
      rw [List.find?_eq_none]
      intro m hm
      simp only [tierFirstName, beq_iff_eq, jsToLower_eq_empty_iff]
      exact (hnames m hm).1
    have h3 : (e :: rest).find? (tierLastName "") = none := by
      rw [List.find?_eq_none]
      intro m hm
      simp only [tierLastName, beq_iff_eq, jsToLower_eq_empty_iff]
      exact (hnames m hm).2.1
    have h4 : (e :: rest).find? (tierContains "") = some e :=
      List.find?_cons_of_pos _ h4e
    unfold findWorkspaceMember
    rw [hq]
    simp [h1, h2, h3, h4]

/-- Claim C9 as amended: a query normalizing to the empty string on a
non-empty member list is never reported not-found — some member's id is
returned; and when every member has a non-empty first name, last name, and
full name, it is the first member in list order (via the containment tier,
since every full name contains the empty string). -/
theorem empty_query_never_not_found (env : Env) (ext : Services) (name k u : String)
    (e : Member) (rest : List Member)
    (hcfg : getTwentyApiConfig env = .ok (k, u))
    (hfetch : ext.fetchMembers = .ok (e :: rest))
    (hq : normalizeQuery name = "") :
    (∃ mid, (lookupWorkspaceMemberByName env ext name).2 = .ok (some mid)) ∧
    ((∀ m ∈ (e :: rest : List Member),
        m.firstName ≠ "" ∧ m.lastName ≠ "" ∧ fullNameOf m ≠ "") →
      (lookupWorkspaceMemberByName env ext name).2 = .ok (some e.id)) := by
  obtain ⟨⟨mid, hmid⟩, hfirst⟩ := findWorkspaceMember_empty_query e rest name hq
  unfold lookupWorkspaceMemberByName
  rw [hcfg, hfetch]
  exact ⟨⟨mid, by simp [hmid]⟩, fun hn => by simp [hfirst hn]⟩

/-- Witness for C9's amended claim: two fully named members, whitespace
query — the first member is returned. -/
theorem empty_query_never_not_found_witness :
    normalizeQuery " " = "" ∧
    (lookupWorkspaceMemberByName envAllSet
        { stubServices with
            fetchMembers := .ok [⟨"id1", "Ann", "Lee"⟩, ⟨"id2", "Bo", "Ng"⟩] } " ").2 =
      .ok (some "id1") := by
  refine ⟨by decide, ?_⟩
  exact (empty_query_never_not_found envAllSet _ " " "k" "u" ⟨"id1", "Ann", "Lee"⟩
    [⟨"id2", "Bo", "Ng"⟩] rfl rfl (by decide)).2 (by decide)

/-- Claim C6: inside the `createAllTasks` loop, a failed creation is absorbed
locally — the failed task contributes no id, leaves the created-title set and
the duplicate counter unchanged, and the fold continues with the remaining
candidates. -/
theorem task_failure_absorbed (createOne : ActionItem → List Effect × Except String String)
    (st : RunState) (task : ActionItem) (rest : List ActionItem)
    (effs : List Effect) (e : String)
    (hdup : st.createdTasks.any (fun x => areSimilarTasks task.title x) = false)
    (hfail : createOne task = (effs, .error e)) :
    (createAllTasksStep createOne st task).taskIds = st.taskIds ∧
    (createAllTasksStep createOne st task).createdTasks = st.createdTasks ∧
    (createAllTasksStep createOne st task).duplicatesSkipped = st.duplicatesSkipped ∧
    List.foldl (createAllTasksStep createOne) st (task :: rest) =
      List.foldl (createAllTasksStep createOne)
        { st with effects := st.effects ++ effs,
                  trace := st.trace ++ [.failed task.title] } rest := by
  have hstep : createAllTasksStep createOne st task =
      { st with effects := st.effects ++ effs,
                trace := st.trace ++ [.failed task.title] } := by
    simp [createAllTasksStep, hdup, hfail]
  exact ⟨by rw [hstep], by rw [hstep], by rw [hstep], by rw [List.foldl_cons, hstep]⟩

/-- Witness for C6: an oracle that always fails, applied to a fresh state. -/
theorem task_failure_absorbed_witness :
    (createAllTasksStep (fun _ => ([], .error "boom")) initRunState
        (ActionItem.mk "Send recap" "d" none none)).taskIds = initRunState.taskIds ∧
    (createAllTasksStep (fun _ => ([], .error "boom")) initRunState
        (ActionItem.mk "Send recap" "d" none none)).createdTasks =
      initRunState.createdTasks ∧
    (createAllTasksStep (fun _ => ([], .error "boom")) initRunState
        (ActionItem.mk "Send recap" "d" none none)).duplicatesSkipped =
      initRunState.duplicatesSkipped ∧
    List.foldl (createAllTasksStep (fun _ => ([], .error "boom"))) initRunState
        [ActionItem.mk "Send recap" "d" none none] =
      List.foldl (createAllTasksStep (fun _ => ([], .error "boom")))
        { initRunState with
            effects := initRunState.effects ++ [],
            trace := initRunState.trace ++ [.failed "Send recap"] } [] :=
  task_failure_absorbed (fun _ => ([], .error "boom")) initRunState
    (ActionItem.mk "Send recap" "d" none none) [] [] "boom" rfl rfl

/-- Claim C7: an unparseable due-date string sets no `dueAt` and raises no
error — `createTaskInTwenty` behaves exactly as it would with no due date. -/
theorem invalid_due_date_dropped (env : Env) (ext : Services) (item : ActionItem)
    (d : String) (pid : Option String) (h : ext.parseDate d = none) :
    resolveDueAt ext (some d) = none ∧
    createTaskInTwenty env ext { item with dueDate := some d } pid =
      createTaskInTwenty env ext { item with dueDate := none } pid := by
  have hdue : resolveDueAt ext (some d) = none := by
    unfold resolveDueAt
    by_cases hd : d = ""
    · simp [jsTruthy, hd]
    · simp [jsTruthy, hd, h]
  have hnone : resolveDueAt ext (none : Option String) = none := rfl
  refine ⟨hdue, ?_⟩
  simp [createTaskInTwenty, hdue, hnone]

/-- Witness for C7: `"next Monday"` fails to parse; the created task is
identical to the one without a due date. -/
theorem invalid_due_date_dropped_witness :
    stubServices.parseDate "next Monday" = none ∧
    resolveDueAt stubServices (some "next Monday") = none ∧
    createTaskInTwenty envAllSet stubServices
        { ActionItem.mk "T" "D" none none with dueDate := some "next Monday" } (some "p") =
      createTaskInTwenty envAllSet stubServices
        { ActionItem.mk "T" "D" none none with dueDate := none } (some "p") := by
  refine ⟨rfl, ?_, ?_⟩
  · exact (invalid_due_date_dropped envAllSet stubServices
      (ActionItem.mk "T" "D" none none) "next Monday" (some "p") rfl).1
  · exact (invalid_due_date_dropped envAllSet stubServices
      (ActionItem.mk "T" "D" none none) "next Monday" (some "p") rfl).2

theorem createAllTasks_loop_inv (createOne : ActionItem → List Effect × Except String String) :
    ∀ (tasks : List ActionItem) (st : RunState),
      (∀ title ∈ (tasks.foldl (createAllTasksStep createOne) st).createdTasks,
        title ∈ st.createdTasks ∨
          ∃ t ∈ tasks, t.title = title ∧ exceptIsOk (createOne t).2 = true) ∧
      (tasks.foldl (createAllTasksStep createOne) st).createdTasks.length +
          st.taskIds.length =
        st.createdTasks.length +
          (tasks.foldl (createAllTasksStep createOne) st).taskIds.length ∧
      (tasks.foldl (createAllTasksStep createOne) st).taskIds.length +
          (tasks.foldl (createAllTasksStep createOne) st).duplicatesSkipped ≤
        st.taskIds.length + st.duplicatesSkipped + tasks.length := by
  intro tasks
  induction tasks with
  | nil =>
    intro st
    exact ⟨fun title ht => Or.inl ht, rfl, Nat.le_refl _⟩
  | cons task rest ih =>
    intro st
    by_cases hdup : st.createdTasks.any (fun x => areSimilarTasks task.title x) = true
    · have hstep : createAllTasksStep createOne st task =
          { st with duplicatesSkipped := st.duplicatesSkipped + 1,
                    trace := st.trace ++ [.skipped task.title] } := by
        simp [createAllTasksStep, hdup]
      obtain ⟨ih1, ih2, ih3⟩ := ih { st with duplicatesSkipped := st.duplicatesSkipped + 1,
                                             trace := st.trace ++ [.skipped task.title] }
      simp only [List.foldl_cons, hstep]
      refine ⟨fun title ht => ?_, ih2, ?_⟩
      · rcases ih1 title ht with h | ⟨t, htm, ha, hb⟩
        · exact Or.inl h
        · exact Or.inr ⟨t, List.mem_cons_of_mem _ htm, ha, hb⟩
      · simp only [List.length_cons] at ih3 ⊢
        omega
    · rcases hco : createOne task with ⟨effs, res⟩
      cases res with
      | error e =>
        have hstep : createAllTasksStep createOne st task =
            { st with effects := st.effects ++ effs,
                      trace := st.trace ++ [.failed task.title] } := by
          simp [createAllTasksStep, hdup, hco]
        obtain ⟨ih1, ih2, ih3⟩ := ih { st with effects := st.effects ++ effs,
                                               trace := st.trace ++ [.failed task.title] }
        simp only [List.foldl_cons, hstep]
        refine ⟨fun title ht => ?_, ih2, ?_⟩
        · rcases ih1 title ht with h | ⟨t, htm, ha, hb⟩
          · exact Or.inl h
          · exact Or.inr ⟨t, List.mem_cons_of_mem _ htm, ha, hb⟩
        · simp only [List.length_cons] at ih3 ⊢
          omega
      | ok id =>
        have hnotmem : task.title ∉ st.createdTasks := by
          intro hmem
          exact hdup (List.any_eq_true.mpr
            ⟨task.title, hmem, areSimilarTasks_self task.title⟩)
        have hstep : createAllTasksStep createOne st task =
            { st with taskIds := st.taskIds ++ [id],
                      createdTasks := st.createdTasks ++ [task.title],
                      effects := st.effects ++ effs,
                      trace := st.trace ++ [.created task.title id] } := by
          simp [createAllTasksStep, hdup, hco, hnotmem]
        obtain ⟨ih1, ih2, ih3⟩ := ih { st with taskIds := st.taskIds ++ [id],
                                               createdTasks := st.createdTasks ++ [task.title],
                                               effects := st.effects ++ effs,
                                               trace := st.trace ++ [.created task.title id] }
        simp only [List.foldl_cons, hstep]
        refine ⟨fun title ht => ?_, ?_, ?_⟩
        · rcases ih1 title ht with h | ⟨t, htm, ha, hb⟩
          · simp only [List.mem_append, List.mem_singleton] at h
            rcases h with h | h
            · exact Or.inl h
            · exact Or.inr ⟨task, List.mem_cons_self _ _,
                by rw [h], by simp [exceptIsOk, hco]⟩
          · exact Or.inr ⟨t, List.mem_cons_of_mem _ htm, ha, hb⟩
        · simp only [List.length_append, List.length_singleton] at ih2
          omega
        · simp only [List.length_append, List.length_singleton, List.length_cons,
            List.length_nil] at ih3 ⊢
          omega

/-- Claim C10: through every run of `createAllTasks`, the created-title set
holds only titles of candidates whose creation call succeeded (skipped
duplicates and failed creations are never added, and each success adds exactly
one id and one title — the duplicate check compares only against this set),
and `taskIds.length + duplicatesSkipped` never exceeds
`actionItems.length + commitments.length`. -/
theorem createAllTasks_created_set_invariant
    (createOne : ActionItem → List Effect × Except String String)
    (actionItems : List ActionItem) (commitments : List Commitment) (noteId : String) :
    ((createAllTasksRun createOne (buildAllTasks actionItems commitments noteId)).createdTasks.all
        (fun title => (buildAllTasks actionItems commitments noteId).any
          (fun t => t.title == title && exceptIsOk (createOne t).2)) = true) ∧
    (createAllTasksRun createOne (buildAllTasks actionItems commitments noteId)).createdTasks.length =
      (createAllTasksRun createOne (buildAllTasks actionItems commitments noteId)).taskIds.length ∧
    (createAllTasksRun createOne (buildAllTasks actionItems commitments noteId)).taskIds.length +
        (createAllTasksRun createOne (buildAllTasks actionItems commitments noteId)).duplicatesSkipped ≤
      actionItems.length + commitments.length := by
  obtain ⟨h1, h2, h3⟩ :=
    createAllTasks_loop_inv createOne (buildAllTasks actionItems commitments noteId) initRunState
  have hlen : (buildAllTasks actionItems commitments noteId).length =
      actionItems.length + commitments.length := by
    simp [buildAllTasks]
  unfold createAllTasksRun
  refine ⟨?_, ?_, ?_⟩
  · rw [List.all_eq_true]
    intro title ht
    rcases h1 title ht with h | ⟨t, htm, hta, htb⟩
    · exact absurd h (by simp [initRunState])
    · exact List.any_eq_true.mpr ⟨t, htm, by simp [hta, htb]⟩
  · simpa [initRunState] using h2
  · rw [hlen] at h3
    simpa [initRunState] using h3
